import Mathlib

/-!
Shallow embedding of `src/repo_to_json.py` (the snapshot builder of the
swarmweaver repository) and verification of the frozen claims about it.

The program walks a directory tree with `os.walk`, prunes excluded
directory names, filters files by suffix and by exact basename, reads
surviving files as UTF-8 text (Python text mode, which performs
universal-newline translation), inserts the text into a nested dict
keyed by path segments, and serializes the dict with
`json.dump(..., indent=2)` (whose default is `ensure_ascii=True`).

The filesystem is modelled as a finite tree.  Bytes are `Nat` values
below 256.  A `readable`/`listable` flag on each entry models whether
the OS grants access to it: `open` on an unreadable file raises
`PermissionError` (uncaught by the program), while `os.walk` with its
default `onerror=None` silently swallows errors when listing a
directory.
-/

mutual
/-- A filesystem entry: a regular file carrying its raw bytes, or a
directory carrying its named children in listing order.
`readable = false` means `open` raises an `OSError`;
`listable = false` means `os.scandir` raises one. -/
inductive Entry where
  | file (readable : Bool) (bytes : List Nat)
  | dir (listable : Bool) (children : EntryList)

/-- The named children of a directory, in the order `os.scandir`
returns them. -/
inductive EntryList where
  | nil
  | cons (name : String) (e : Entry) (rest : EntryList)
end

mutual
/-- A Python value as built by the script: nested dicts from strings to
values, with file contents as string leaves. -/
inductive PyObj where
  | str (s : String)
  | dict (entries : PyEntries)

/-- The key-value pairs of a dict, in insertion order.  For this program
that order is: the files of a directory (in listing order) followed by
its subdirectories (in listing order), because `os.walk` is top-down
and the key for a subdirectory is only created by `setdefault` at the
subdirectory's own visit. -/
inductive PyEntries where
  | nil
  | cons (key : String) (v : PyObj) (rest : PyEntries)
end

/-- Concatenation of child lists (used only to state theorems about an
entry sitting at an arbitrary position in a directory). -/
def EntryList.append : EntryList → EntryList → EntryList
  | EntryList.nil, l => l
  | EntryList.cons n e r, l => EntryList.cons n e (r.append l)

instance : Append EntryList := ⟨EntryList.append⟩

/-- Concatenation of dict entry lists. -/
def PyEntries.append : PyEntries → PyEntries → PyEntries
  | PyEntries.nil, l => l
  | PyEntries.cons k v r, l => PyEntries.cons k v (r.append l)

instance : Append PyEntries := ⟨PyEntries.append⟩

/-- List-spine induction for `EntryList` (each child entry is treated as
opaque, so the mutual recursor is not needed). -/
def EntryList.recList {motive : EntryList → Sort u} (nil : motive EntryList.nil)
    (cons : ∀ n e r, motive r → motive (EntryList.cons n e r)) : ∀ l, motive l
  | EntryList.nil => nil
  | EntryList.cons n e r => cons n e r (EntryList.recList nil cons r)

/-- List-spine induction for `PyEntries`. -/
def PyEntries.recList {motive : PyEntries → Sort u} (nil : motive PyEntries.nil)
    (cons : ∀ k v r, motive r → motive (PyEntries.cons k v r)) : ∀ l, motive l
  | PyEntries.nil => nil
  | PyEntries.cons k v r => cons k v r (PyEntries.recList nil cons r)

/-- A character the serializer may emit without escaping concerns:
plain ASCII (code point below 128). -/
def asciiChar (c : Char) : Bool := c.toNat < 128

/-- The pair `(key, v)` occurs in the entry list. -/
def PyEntries.holds (key : String) (v : PyObj) : PyEntries → Prop
  | PyEntries.nil => False
  | PyEntries.cons k' v' rest => (key = k' ∧ v = v') ∨ PyEntries.holds key v rest

/-- Source line 7: `excluded_dirs = {'.git', 'node_modules', 'dist', 'build', '__pycache__'}`. -/
def excluded_dirs : List String := [".git", "node_modules", "dist", "build", "__pycache__"]

/-- Source line 8: `excluded_files = {'.DS_Store', '*.log', '*.lock'}` — literal
strings, compared by exact equality (`file in excluded_files`), not globs. -/
def excluded_files : List String := [".DS_Store", "*.log", "*.lock"]

/-- Source line 9: `excluded_extensions = {'.js', '.js.map', '.d.ts', '.exe', '.pyc'}`. -/
def excluded_extensions : List String := [".js", ".js.map", ".d.ts", ".exe", ".pyc"]

/-- Python's `str.endswith`: code-point level suffix test.  `s.endswith(s)`
is true, so a file named exactly like an extension is matched. -/
def pyEndswith (s suffix : String) : Bool := suffix.data.isSuffixOf s.data

/-- Source lines 25-26: the file-exclusion test
`any(file.endswith(ext) for ext in excluded_extensions) or file in excluded_files`. -/
def excludedFileCheck (file : String) : Bool :=
  excluded_extensions.any (fun ext => pyEndswith file ext) || excluded_files.contains file

/-- Whether a byte is a UTF-8 continuation byte (`0x80..0xBF`). -/
def contByte (b : Nat) : Bool := 128 ≤ b && b < 192

/-- Strict UTF-8 decoding of a byte list, exactly as Python's
`bytes.decode('utf-8')` (strict errors): rejects overlong encodings,
surrogates and code points above `U+10FFFF`. -/
def decodeUtf8Chars : List Nat → Option (List Char)
  | [] => some []
  | b1 :: rest =>
    if b1 < 128 then
      match decodeUtf8Chars rest with
      | some cs => some (Char.ofNat b1 :: cs)
      | none => none
    else if 194 ≤ b1 && b1 ≤ 223 then
      match rest with
      | b2 :: rest2 =>
        if contByte b2 then
          match decodeUtf8Chars rest2 with
          | some cs => some (Char.ofNat ((b1 - 192) * 64 + (b2 - 128)) :: cs)
          | none => none
        else none
      | [] => none
    else if 224 ≤ b1 && b1 ≤ 239 then
      match rest with
      | b2 :: b3 :: rest3 =>
        if (if b1 = 224 then 160 ≤ b2 && b2 < 192
            else if b1 = 237 then 128 ≤ b2 && b2 < 160
            else contByte b2) && contByte b3 then
          match decodeUtf8Chars rest3 with
          | some cs =>
            some (Char.ofNat ((b1 - 224) * 4096 + (b2 - 128) * 64 + (b3 - 128)) :: cs)
          | none => none
        else none
      | _ => none
    else if 240 ≤ b1 && b1 ≤ 244 then
      match rest with
      | b2 :: b3 :: b4 :: rest4 =>
        if (if b1 = 240 then 144 ≤ b2 && b2 < 192
            else if b1 = 244 then 128 ≤ b2 && b2 < 144
            else contByte b2) && contByte b3 && contByte b4 then
          match decodeUtf8Chars rest4 with
          | some cs =>
            some (Char.ofNat
              ((b1 - 240) * 262144 + (b2 - 128) * 4096 + (b3 - 128) * 64 + (b4 - 128)) :: cs)
          | none => none
        else none
      | _ => none
    else none

/-- Strict UTF-8 decoding to a string, `none` on invalid input. -/
def decodeUtf8 (bytes : List Nat) : Option String := (decodeUtf8Chars bytes).map String.mk

/-- Python universal-newline translation performed by text-mode reads
(`open(..., 'r')` with the default `newline=None`): every `\r\n` pair
and every lone `\r` becomes `\n`. -/
def translateNewlines : List Char → List Char
  | [] => []
  | [c] => if c = '\r' then ['\n'] else [c]
  | c1 :: c2 :: rest =>
    if c1 = '\r' then
      if c2 = '\n' then '\n' :: translateNewlines rest
      else '\n' :: translateNewlines (c2 :: rest)
    else c1 :: translateNewlines (c2 :: rest)

/-- Universal-newline translation on strings. -/
def pyNewlineTranslate (s : String) : String := String.mk (translateNewlines s.data)

/-- Source lines 31-32: `open(file_path, 'r', encoding='utf-8')` followed
by `f.read()` — strict UTF-8 decoding, then universal-newline
translation; `none` models the `UnicodeDecodeError` being raised. -/
def pyReadText (bytes : List Nat) : Option String := (decodeUtf8 bytes).map pyNewlineTranslate

/-- Source lines 24-36, file half of one `os.walk` visit: iterate the files
of a directory in listing order; skip names failing the exclusion test
(line 27 `continue`); opening an unreadable file raises an uncaught
`OSError` (modelled `Except.error ()`, aborting the whole run); a
`UnicodeDecodeError` is caught and skips the file (line 34); otherwise
the decoded text is inserted under the file's basename (line 36).
Directory children are handled by `processDirs`. -/
def processFiles : EntryList → Except Unit PyEntries
  | EntryList.nil => Except.ok PyEntries.nil
  | EntryList.cons _ (Entry.dir _ _) rest => processFiles rest
  | EntryList.cons name (Entry.file readable bytes) rest =>
    if excludedFileCheck name then processFiles rest
    else if readable then
      match pyReadText bytes with
      | none => processFiles rest
      | some content =>
        match processFiles rest with
        | Except.error e => Except.error e
        | Except.ok l => Except.ok (PyEntries.cons name (PyObj.str content) l)
    else Except.error ()

/-- Source lines 13-22, directory half of the traversal: subdirectories
whose basename is in `excluded_dirs` are pruned before recursion
(line 15) and never inspected; a subdirectory `os.scandir` cannot list
is silently dropped by `os.walk`'s default `onerror=None`, producing no
node; every other subdirectory gets a dict node (created by
`setdefault` at its own visit, line 22) holding its files followed by
its own subdirectories, depth-first. -/
def processDirs : EntryList → Except Unit PyEntries
  | EntryList.nil => Except.ok PyEntries.nil
  | EntryList.cons _ (Entry.file _ _) rest => processDirs rest
  | EntryList.cons name (Entry.dir listable sub) rest =>
    if excluded_dirs.contains name then processDirs rest
    else if listable then
      match processFiles sub with
      | Except.error e => Except.error e
      | Except.ok fs =>
        match processDirs sub with
        | Except.error e => Except.error e
        | Except.ok ds =>
          match processDirs rest with
          | Except.error e => Except.error e
          | Except.ok others => Except.ok (PyEntries.cons name (PyObj.dict (fs ++ ds)) others)
    else processDirs rest

/-- The dict built for one listable directory: its surviving files (in
listing order, inserted at this directory's visit) followed by its
surviving subdirectories (keys created at their own later visits). -/
def buildEntries (children : EntryList) : Except Unit PyEntries :=
  match processFiles children with
  | Except.error e => Except.error e
  | Except.ok fs =>
    match processDirs children with
    | Except.error e => Except.error e
    | Except.ok ds => Except.ok (fs ++ ds)

/-- Source lines 11-36: the `repo_structure` dict after the `os.walk` loop.
`none` models a `repo_path` that does not exist, `Entry.file` a path
that is not a directory, `Entry.dir false` a root that cannot be
listed: in all three cases `os.scandir` raises, `os.walk`'s default
`onerror=None` swallows the error, the loop body never runs, and the
structure stays empty. -/
def walkRepo : Option Entry → Except Unit PyEntries
  | none => Except.ok PyEntries.nil
  | some (Entry.file _ _) => Except.ok PyEntries.nil
  | some (Entry.dir false _) => Except.ok PyEntries.nil
  | some (Entry.dir true children) => buildEntries children

/-- Lowercase hexadecimal digit, as produced by Python's `'\u%04x' % code`. -/
def hexDigitChar (n : Nat) : Char :=
  if n < 10 then Char.ofNat (48 + n) else Char.ofNat (87 + n)

/-- Four lowercase hex digits of a code unit below `0x10000`. -/
def hex4 (n : Nat) : List Char :=
  [hexDigitChar (n / 4096 % 16), hexDigitChar (n / 256 % 16),
   hexDigitChar (n / 16 % 16), hexDigitChar (n % 16)]

/-- One character as emitted by `json.dump`'s default ASCII encoder
(`py_encode_basestring_ascii`): backslash, quote and the five short
control escapes are written with a backslash; other characters between
`0x20` and `0x7E` are written literally; everything else — all control
characters and every non-ASCII character — becomes `\uXXXX`, using a
surrogate pair above `U+FFFF`. -/
def escapeAsciiChar (c : Char) : List Char :=
  if c = '\\' then ['\\', '\\']
  else if c = '\"' then ['\\', '\"']
  else if c = '\x08' then ['\\', 'b']
  else if c = '\t' then ['\\', 't']
  else if c = '\n' then ['\\', 'n']
  else if c = '\x0c' then ['\\', 'f']
  else if c = '\r' then ['\\', 'r']
  else if 32 ≤ c.toNat && c.toNat ≤ 126 then [c]
  else if c.toNat < 65536 then '\\' :: 'u' :: hex4 c.toNat
  else
    ('\\' :: 'u' :: hex4 (55296 + (c.toNat - 65536) / 1024)) ++
      ('\\' :: 'u' :: hex4 (56320 + (c.toNat - 65536) % 1024))

/-- The escaped body of a JSON string. -/
def escapeJsonString (cs : List Char) : List Char := (cs.map escapeAsciiChar).flatten

/-- A JSON string literal: quotes around the escaped body. -/
def quoteJson (s : String) : List Char := '\"' :: (escapeJsonString s.data ++ ['\"'])

/-- Indentation in front of a dict item at nesting depth `lvl`: `json.dump`
is called with `indent=2`, so two spaces per level. -/
def indentOf (lvl : Nat) : List Char := List.replicate (2 * lvl) ' '

mutual
/-- Source line 39, `json.dump(repo_structure, f, indent=2)`: serialize one
value sitting at nesting depth `lvl`.  An empty dict prints as the two
brace characters; a non-empty dict opens a brace, prints its items one
per line at depth `lvl + 1`, and closes the brace on its own line at
depth `lvl`.  `ensure_ascii` is left at its default `True`. -/
def dumpObj : Nat → PyObj → List Char
  | _, PyObj.str s => quoteJson s
  | _, PyObj.dict PyEntries.nil => ['\x7b', '\x7d']
  | lvl, PyObj.dict (PyEntries.cons k v rest) =>
    '\x7b' :: '\n' ::
      (dumpItems (lvl + 1) (PyEntries.cons k v rest) ++ '\n' :: (indentOf lvl ++ ['\x7d']))

/-- The item lines of a non-empty dict: each is indentation, the quoted
key, a colon and a space, and the value; items are separated by a comma
and a newline. -/
def dumpItems : Nat → PyEntries → List Char
  | _, PyEntries.nil => []
  | lvl, PyEntries.cons k v rest =>
    (indentOf lvl ++ (quoteJson k ++ ':' :: ' ' :: dumpObj lvl v)) ++
      (match rest with
       | PyEntries.nil => []
       | PyEntries.cons _ _ _ => ',' :: '\n' :: dumpItems lvl rest)
end

/-- The full text written to the output file: `json.dump` of the built
structure with `indent=2` and the default `ensure_ascii=True`. -/
def pyJsonDumps (entries : PyEntries) : String :=
  String.mk (dumpObj 0 (PyObj.dict entries))

/-- The whole program run (source lines 5-48): build the structure by
walking the root, then write the JSON document and exit with status 0
(the `__main__` block prints a confirmation and falls off the end).
`Except.error ()` models an uncaught exception: the output file is
never opened and the interpreter exits with a non-zero status.  The
`Except.ok` payload is the output file's content and the exit code. -/
def repo_to_json (root : Option Entry) : Except Unit (String × Nat) :=
  match walkRepo root with
  | Except.error e => Except.error e
  | Except.ok entries => Except.ok (pyJsonDumps entries, 0)

/-! Basic lemmas about the list types. -/

@[simp] theorem entryAppend_eq (l1 l2 : EntryList) : EntryList.append l1 l2 = l1 ++ l2 := rfl

@[simp] theorem entryNil_append (l : EntryList) : EntryList.nil ++ l = l := rfl

@[simp] theorem entryCons_append (n : String) (e : Entry) (r l : EntryList) :
    EntryList.cons n e r ++ l = EntryList.cons n e (r ++ l) := rfl

@[simp] theorem pyAppend_eq (l1 l2 : PyEntries) : PyEntries.append l1 l2 = l1 ++ l2 := rfl

@[simp] theorem pyNil_append (l : PyEntries) : PyEntries.nil ++ l = l := rfl

@[simp] theorem pyCons_append (k : String) (v : PyObj) (r l : PyEntries) :
    PyEntries.cons k v r ++ l = PyEntries.cons k v (r ++ l) := rfl

theorem PyEntries.holds_append_right (k : String) (v : PyObj) (l2 : PyEntries)
    (h : PyEntries.holds k v l2) : ∀ l1 : PyEntries, PyEntries.holds k v (l1 ++ l2)
  | PyEntries.nil => h
  | PyEntries.cons _ _ r => Or.inr (PyEntries.holds_append_right k v l2 h r)

/-! Skip lemmas: entries the traversal filters out contribute nothing,
wherever they sit in a directory listing. -/

/-- Directory children contribute nothing to the file pass. -/
theorem processFiles_dir_skip (name : String) (lb : Bool) (sub : EntryList) :
    ∀ pre post : EntryList,
      processFiles (pre ++ EntryList.cons name (Entry.dir lb sub) post) =
        processFiles (pre ++ post) := by
  intro pre
  induction pre using EntryList.recList with
  | nil => intro post; rfl
  | cons n e r ih =>
    intro post
    cases e with
    | dir lb' sub' => simpa [processFiles] using ih post
    | file rd b =>
      simp only [entryCons_append, processFiles, entryAppend_eq, ih post]

/-- File children contribute nothing to the directory pass. -/
theorem processDirs_file_skip (name : String) (rd : Bool) (b : List Nat) :
    ∀ pre post : EntryList,
      processDirs (pre ++ EntryList.cons name (Entry.file rd b) post) =
        processDirs (pre ++ post) := by
  intro pre
  induction pre using EntryList.recList with
  | nil => intro post; rfl
  | cons n e r ih =>
    intro post
    cases e with
    | file rd' b' => simpa [processDirs] using ih post
    | dir lb' sub' =>
      simp only [entryCons_append, processDirs, entryAppend_eq, ih post]

/-- A file whose name fails the exclusion test is skipped by the file
pass, wherever it sits, whatever its bytes, readable or not. -/
theorem processFiles_excluded_skip (name : String) (rd : Bool) (b : List Nat)
    (h : excludedFileCheck name = true) :
    ∀ pre post : EntryList,
      processFiles (pre ++ EntryList.cons name (Entry.file rd b) post) =
        processFiles (pre ++ post) := by
  intro pre
  induction pre using EntryList.recList with
  | nil => intro post; simp [processFiles, h]
  | cons n e r ih =>
    intro post
    cases e with
    | dir lb' sub' => simpa [processFiles] using ih post
    | file rd' b' =>
      simp only [entryCons_append, processFiles, entryAppend_eq, ih post]

/-- A readable file whose bytes are not valid UTF-8 is skipped by the
file pass (the `UnicodeDecodeError` is caught), wherever it sits. -/
theorem processFiles_binary_skip (name : String) (b : List Nat)
    (h : pyReadText b = none) :
    ∀ pre post : EntryList,
      processFiles (pre ++ EntryList.cons name (Entry.file true b) post) =
        processFiles (pre ++ post) := by
  intro pre
  induction pre using EntryList.recList with
  | nil =>
    intro post
    by_cases hc : excludedFileCheck name = true
    · simp [processFiles, hc]
    · simp [processFiles, hc, h]
  | cons n e r ih =>
    intro post
    cases e with
    | dir lb' sub' => simpa [processFiles] using ih post
    | file rd' b' =>
      simp only [entryCons_append, processFiles, entryAppend_eq, ih post]

/-- A non-excluded file that cannot be opened makes the whole file pass
raise: the uncaught `OSError` aborts the run. -/
theorem processFiles_unreadable (name : String) (b : List Nat)
    (h : excludedFileCheck name = false) :
    ∀ pre post : EntryList,
      processFiles (pre ++ EntryList.cons name (Entry.file false b) post) =
        Except.error () := by
  intro pre
  induction pre using EntryList.recList with
  | nil => intro post; simp [processFiles, h]
  | cons n e r ih =>
    intro post
    cases e with
    | dir lb' sub' => simpa [processFiles] using ih post
    | file rd' b' =>
      simp only [entryCons_append, processFiles, entryAppend_eq, ih post]
      cases hr : pyReadText b' <;> simp

/-- A subdirectory whose basename is excluded is pruned: the directory
pass never inspects it, wherever it sits. -/
theorem processDirs_excluded_skip (name : String) (lb : Bool) (sub : EntryList)
    (h : excluded_dirs.contains name = true) :
    ∀ pre post : EntryList,
      processDirs (pre ++ EntryList.cons name (Entry.dir lb sub) post) =
        processDirs (pre ++ post) := by
  intro pre
  induction pre using EntryList.recList with
  | nil =>
    intro post
    simp only [entryNil_append, processDirs, h]
    rw [if_true]
  | cons n e r ih =>
    intro post
    cases e with
    | file rd' b' => simpa [processDirs] using ih post
    | dir lb' sub' =>
      simp only [entryCons_append, processDirs, entryAppend_eq, ih post]

/-- A subdirectory `os.scandir` cannot list is silently dropped by
`os.walk` (default `onerror=None`): no node, traversal continues. -/
theorem processDirs_unlistable_skip (name : String) (sub : EntryList) :
    ∀ pre post : EntryList,
      processDirs (pre ++ EntryList.cons name (Entry.dir false sub) post) =
        processDirs (pre ++ post) := by
  intro pre
  induction pre using EntryList.recList with
  | nil =>
    intro post
    by_cases hc : excluded_dirs.contains name = true
    · simp [processDirs, hc]
    · simp [processDirs, hc]
  | cons n e r ih =>
    intro post
    cases e with
    | file rd' b' => simpa [processDirs] using ih post
    | dir lb' sub' =>
      simp only [entryCons_append, processDirs, entryAppend_eq, ih post]

/-- If the directory pass succeeds, a non-excluded listable subdirectory
whose own build gives `l` contributes the node `(name, dict l)`. -/
theorem processDirs_holds (name : String) (sub : EntryList) (l : PyEntries)
    (hname : excluded_dirs.contains name = false)
    (hsub : buildEntries sub = Except.ok l) :
    ∀ pre post : EntryList, ∀ ds : PyEntries,
      processDirs (pre ++ EntryList.cons name (Entry.dir true sub) post) = Except.ok ds →
      PyEntries.holds name (PyObj.dict l) ds := by
  have hfs : ∃ fs dssub, processFiles sub = Except.ok fs ∧ processDirs sub = Except.ok dssub ∧
      l = fs ++ dssub := by
    unfold buildEntries at hsub
    cases h1 : processFiles sub with
    | error e => rw [h1] at hsub; cases hsub
    | ok fs =>
      rw [h1] at hsub
      cases h2 : processDirs sub with
      | error e => rw [h2] at hsub; cases hsub
      | ok dssub => rw [h2] at hsub; cases hsub; exact ⟨fs, dssub, rfl, rfl, rfl⟩
  obtain ⟨fs, dssub, h1, h2, rfl⟩ := hfs
  intro pre
  induction pre using EntryList.recList with
  | nil =>
    intro post ds hds
    simp only [entryNil_append, processDirs, hname, h1, h2] at hds
    simp only [Bool.false_eq_true, if_false, if_true] at hds
    cases h3 : processDirs post with
    | error e => rw [h3] at hds; cases hds
    | ok others => rw [h3] at hds; cases hds; exact Or.inl ⟨rfl, rfl⟩
  | cons n e r ih =>
    intro post ds hds
    cases e with
    | file rd' b' =>
      simp only [entryCons_append, processDirs] at hds
      exact ih post ds hds
    | dir lb' sub' =>
      simp only [entryCons_append, processDirs, entryAppend_eq] at hds
      by_cases hc : excluded_dirs.contains n = true
      · rw [if_pos hc] at hds; exact ih post ds hds
      · rw [if_neg hc] at hds
        cases lb' with
        | false => simp only [Bool.false_eq_true, if_false] at hds; exact ih post ds hds
        | true =>
          simp only [if_true] at hds
          cases h4 : processFiles sub' with
          | error e => rw [h4] at hds; cases hds
          | ok fs' =>
            rw [h4] at hds
            cases h5 : processDirs sub' with
            | error e => rw [h5] at hds; cases hds
            | ok ds' =>
              rw [h5] at hds
              cases h6 : processDirs (r ++ EntryList.cons name (Entry.dir true sub) post) with
              | error e => rw [h6] at hds; cases hds
              | ok others =>
                rw [h6] at hds; cases hds
                exact Or.inr (ih post others h6)

/-- Appending the empty entry list on the right is the identity. -/
theorem PyEntries.append_nil : ∀ l : PyEntries, l ++ PyEntries.nil = l := by
  intro l
  induction l using PyEntries.recList with
  | nil => rfl
  | cons k v r ih => simp only [pyCons_append, ih]

/-- Universal-newline translation leaves a carriage-return-free character
list unchanged. -/
theorem translateNewlines_no_cr : ∀ cs : List Char, '\r' ∉ cs → translateNewlines cs = cs
  | [], _ => rfl
  | [c], h => by
    have hc : ¬ c = '\r' := fun e => h (by rw [e]; exact List.mem_singleton_self _)
    simp [translateNewlines, hc]
  | c1 :: c2 :: rest, h => by
    have h1 : ¬ c1 = '\r' := fun e => h (by rw [e]; exact List.mem_cons_self _ _)
    have h2 : '\r' ∉ c2 :: rest := fun m => h (List.mem_cons_of_mem _ m)
    simp [translateNewlines, h1, translateNewlines_no_cr (c2 :: rest) h2]

/-- A surviving, decodable file at the head of a single-entry directory
produces exactly one leaf holding the translated decoded text. -/
theorem buildEntries_single_file (name : String) (bytes : List Nat) (s : String)
    (hd : decodeUtf8 bytes = some s) (hc : excludedFileCheck name = false) :
    buildEntries (EntryList.cons name (Entry.file true bytes) EntryList.nil) =
      Except.ok (PyEntries.cons name (PyObj.str (pyNewlineTranslate s)) PyEntries.nil) := by
  simp [buildEntries, processFiles, processDirs, hc, pyReadText, hd, PyEntries.append_nil]

/-- Hex digits are ASCII. -/
theorem hexDigitChar_ascii (n : Nat) (h : n < 16) : (hexDigitChar n).toNat < 128 := by
  interval_cases n <;> decide

/-- Four-digit hex groups are ASCII. -/
theorem hex4_ascii (n : Nat) : (hex4 n).all asciiChar = true := by
  have h1 := hexDigitChar_ascii (n / 4096 % 16) (Nat.mod_lt _ (by omega))
  have h2 := hexDigitChar_ascii (n / 256 % 16) (Nat.mod_lt _ (by omega))
  have h3 := hexDigitChar_ascii (n / 16 % 16) (Nat.mod_lt _ (by omega))
  have h4 := hexDigitChar_ascii (n % 16) (Nat.mod_lt _ (by omega))
  simp [hex4, asciiChar, h1, h2, h3, h4]

/-- Every character group the JSON string escaper emits is pure ASCII:
with `ensure_ascii=True` nothing above code point 127 survives. -/
theorem escapeAsciiChar_ascii (c : Char) : (escapeAsciiChar c).all asciiChar = true := by
  have hu : ∀ m : Nat, (('\\' :: 'u' :: hex4 m).all asciiChar) = true := by
    intro m
    simp only [List.all_cons, hex4_ascii m, Bool.and_true]
    decide
  unfold escapeAsciiChar
  split
  · decide
  split
  · decide
  split
  · decide
  split
  · decide
  split
  · decide
  split
  · decide
  split
  · decide
  split
  · rename_i hrange
    simp only [Bool.and_eq_true, decide_eq_true_eq] at hrange
    simp [asciiChar]
    omega
  split
  · exact hu _
  · rw [List.all_append]
    rw [hu _, hu _]
    rfl

/-- The escaped body of any JSON string is pure ASCII. -/
theorem escapeJsonString_ascii (cs : List Char) : (escapeJsonString cs).all asciiChar = true := by
  rw [escapeJsonString, List.all_eq_true]
  intro a ha
  rw [List.mem_flatten] at ha
  obtain ⟨l, hl, hal⟩ := ha
  rw [List.mem_map] at hl
  obtain ⟨c, _, rfl⟩ := hl
  exact List.all_eq_true.mp (escapeAsciiChar_ascii c) a hal

/-- Any serialized JSON string literal is pure ASCII. -/
theorem quoteJson_ascii (s : String) : (quoteJson s).all asciiChar = true := by
  simp only [quoteJson, List.all_cons, List.all_append, escapeJsonString_ascii,
    Bool.and_true, Bool.true_and]
  decide

/-- Indentation is spaces only, hence ASCII. -/
theorem indentOf_ascii (lvl : Nat) : (indentOf lvl).all asciiChar = true := by
  rw [indentOf, List.all_eq_true]
  intro a ha
  rw [List.eq_of_mem_replicate ha]
  decide

/-- Unfolding equation: a one-item dict body. -/
theorem dumpItems_cons_nil (lvl : Nat) (k : String) (v : PyObj) :
    dumpItems lvl (PyEntries.cons k v PyEntries.nil) =
      (indentOf lvl ++ (quoteJson k ++ ':' :: ' ' :: dumpObj lvl v)) ++ [] := rfl

/-- Unfolding equation: a dict body with at least two items. -/
theorem dumpItems_cons_cons (lvl : Nat) (k k2 : String) (v v2 : PyObj) (r2 : PyEntries) :
    dumpItems lvl (PyEntries.cons k v (PyEntries.cons k2 v2 r2)) =
      (indentOf lvl ++ (quoteJson k ++ ':' :: ' ' :: dumpObj lvl v)) ++
        (',' :: '\n' :: dumpItems lvl (PyEntries.cons k2 v2 r2)) := rfl

/-- Unfolding equation: a non-empty dict value. -/
theorem dumpObj_dict_cons (lvl : Nat) (k : String) (v : PyObj) (rest : PyEntries) :
    dumpObj lvl (PyObj.dict (PyEntries.cons k v rest)) =
      '\x7b' :: '\n' ::
        (dumpItems (lvl + 1) (PyEntries.cons k v rest) ++ '\n' :: (indentOf lvl ++ ['\x7d'])) :=
  rfl

mutual
/-- Everything `dumpObj` emits is pure ASCII. -/
theorem dumpObj_ascii : ∀ (lvl : Nat) (obj : PyObj), (dumpObj lvl obj).all asciiChar = true
  | _, PyObj.str s => by simpa [dumpObj] using quoteJson_ascii s
  | _, PyObj.dict PyEntries.nil => rfl
  | lvl, PyObj.dict (PyEntries.cons k v rest) => by
    rw [dumpObj_dict_cons]
    simp only [List.all_cons, List.all_append,
      dumpItems_ascii (lvl + 1) (PyEntries.cons k v rest), indentOf_ascii lvl,
      List.all_nil, Bool.and_true, Bool.true_and]
    decide

/-- Everything `dumpItems` emits is pure ASCII. -/
theorem dumpItems_ascii :
    ∀ (lvl : Nat) (items : PyEntries), (dumpItems lvl items).all asciiChar = true
  | _, PyEntries.nil => rfl
  | lvl, PyEntries.cons k v rest => by
    cases rest with
    | nil =>
      rw [dumpItems_cons_nil]
      simp only [List.all_append, List.all_cons, indentOf_ascii lvl, quoteJson_ascii k,
        dumpObj_ascii lvl v, List.all_nil, Bool.and_true, Bool.true_and]
      decide
    | cons k2 v2 r2 =>
      rw [dumpItems_cons_cons]
      simp only [List.all_append, List.all_cons, indentOf_ascii lvl, quoteJson_ascii k,
        dumpObj_ascii lvl v, dumpItems_ascii lvl (PyEntries.cons k2 v2 r2),
        Bool.and_true, Bool.true_and]
      decide
end

/-! The claims. -/

/-- Claim C1, counterexample: with a missing root path (`none`), the run
does NOT fail — `os.walk` silently yields nothing, the program writes
the well-formed two-character document and exits 0, contradicting the
claimed non-zero exit with no output file. -/
theorem claim_C1_counterexample :
    repo_to_json none = Except.ok ("\x7b\x7d", 0) ∧
    (∀ e : Unit, repo_to_json none ≠ Except.error e) :=
  ⟨rfl, fun _ h => nomatch h⟩

/-- Claim C1, amended: if the root path does not exist, is not a
directory, or cannot be listed, `os.walk` raises nothing and yields no
entries; the run succeeds with exit code 0 and writes the well-formed
empty JSON object as the output file. -/
theorem claim_C1_amended :
    repo_to_json none = Except.ok ("\x7b\x7d", 0) ∧
    (∀ (rd : Bool) (b : List Nat),
      repo_to_json (some (Entry.file rd b)) = Except.ok ("\x7b\x7d", 0)) ∧
    (∀ sub : EntryList, repo_to_json (some (Entry.dir false sub)) = Except.ok ("\x7b\x7d", 0)) :=
  ⟨rfl, fun _ _ => rfl, fun _ => rfl⟩

/-- Claim C2, counterexample: a file whose bytes decode to the text
`a\r\nb` is stored as `a\nb` — Python text mode normalizes line
endings, so the leaf is NOT byte-for-byte the decoded content. -/
theorem claim_C2_counterexample :
    decodeUtf8 [97, 13, 10, 98] = some "a\r\nb" ∧
    buildEntries (EntryList.cons "a.txt" (Entry.file true [97, 13, 10, 98]) EntryList.nil) =
      Except.ok (PyEntries.cons "a.txt" (PyObj.str "a\nb") PyEntries.nil) ∧
    ("a\nb" : String) ≠ "a\r\nb" :=
  ⟨by decide, rfl, by decide⟩

/-- Claim C2, amended: the File leaf holds the decoded UTF-8 content
after Python text-mode universal-newline translation (each `\r\n` and
each lone `\r` becomes `\n`); content containing no carriage return is
stored verbatim. -/
theorem claim_C2_amended :
    (∀ (name : String) (bytes : List Nat) (s : String),
      decodeUtf8 bytes = some s → excludedFileCheck name = false →
      buildEntries (EntryList.cons name (Entry.file true bytes) EntryList.nil) =
        Except.ok (PyEntries.cons name (PyObj.str (pyNewlineTranslate s)) PyEntries.nil)) ∧
    (∀ s : String, '\r' ∉ s.data → pyNewlineTranslate s = s) := by
  constructor
  · exact fun name bytes s hd hc => buildEntries_single_file name bytes s hd hc
  · intro s h
    unfold pyNewlineTranslate
    rw [translateNewlines_no_cr s.data h]

/-- Claim C2, witness: the amended statement applied to a concrete file. -/
theorem claim_C2_witness :
    buildEntries (EntryList.cons "a.txt" (Entry.file true [104, 13, 105]) EntryList.nil) =
      Except.ok (PyEntries.cons "a.txt" (PyObj.str (pyNewlineTranslate "h\ri")) PyEntries.nil) :=
  claim_C2_amended.1 "a.txt" [104, 13, 105] "h\ri" (by decide) (by decide)

/-- Claim C3, counterexample: a file containing the non-ASCII character
`é` is serialized as the escape `\u00e9` — `json.dump` is called
without `ensure_ascii=False`, so raw unicode never reaches the output. -/
theorem claim_C3_counterexample :
    decodeUtf8 [195, 169] = some "é" ∧
    repo_to_json (some (Entry.dir true
        (EntryList.cons "f.txt" (Entry.file true [195, 169]) EntryList.nil))) =
      Except.ok ("\x7b\n  \"f.txt\": \"\\u00e9\"\n\x7d", 0) ∧
    'é' ∉ "\x7b\n  \"f.txt\": \"\\u00e9\"\n\x7d".data :=
  ⟨by decide, rfl, by decide⟩

/-- Claim C3, amended: the serializer writes the tree with 2-space
indentation, but every non-ASCII character is escaped to an ASCII
`\uXXXX` sequence (`json.dump`'s default `ensure_ascii=True`): the
whole output is pure ASCII, never raw unicode. -/
theorem claim_C3_amended :
    (∀ (lvl : Nat) (obj : PyObj), (dumpObj lvl obj).all asciiChar = true) ∧
    repo_to_json (some (Entry.dir true (EntryList.cons "dir"
        (Entry.dir true (EntryList.cons "f.txt" (Entry.file true [104, 105]) EntryList.nil))
        EntryList.nil))) =
      Except.ok ("\x7b\n  \"dir\": \x7b\n    \"f.txt\": \"hi\"\n  \x7d\n\x7d", 0) :=
  ⟨dumpObj_ascii, rfl⟩

/-- Claim C4: a subdirectory whose basename is in `excluded_dirs` is
pruned before recursion: the build result is the same as if the
subdirectory were absent, whatever its contents — so it is never
entered, never inspected, and contributes no node. -/
theorem claim_C4_dir_pruning :
    ∀ (name : String) (lb : Bool) (sub pre post : EntryList),
      excluded_dirs.contains name = true →
      buildEntries (pre ++ EntryList.cons name (Entry.dir lb sub) post) =
        buildEntries (pre ++ post) := by
  intro name lb sub pre post h
  unfold buildEntries
  rw [processFiles_dir_skip name lb sub pre post,
    processDirs_excluded_skip name lb sub h pre post]

/-- Claim C4, witness: a `.git` directory containing an unreadable file
(reading it would abort the run) is pruned without being inspected. -/
theorem claim_C4_witness :
    buildEntries (EntryList.cons ".git"
        (Entry.dir true (EntryList.cons "config" (Entry.file false [0]) EntryList.nil))
        (EntryList.cons "a.txt" (Entry.file true [104]) EntryList.nil)) =
      buildEntries (EntryList.cons "a.txt" (Entry.file true [104]) EntryList.nil) :=
  claim_C4_dir_pruning ".git" true
    (EntryList.cons "config" (Entry.file false [0]) EntryList.nil)
    EntryList.nil (EntryList.cons "a.txt" (Entry.file true [104]) EntryList.nil) (by decide)

/-- Claim C5, counterexample: a readable file named `data.bin` matches no
exclusion rule, yet no leaf is created for it because its bytes are not
valid UTF-8 — so "no leaf created" does not imply the exclusion
condition, refuting the stated if-and-only-if. -/
theorem claim_C5_counterexample :
    buildEntries (EntryList.cons "data.bin" (Entry.file true [255]) EntryList.nil) =
      Except.ok PyEntries.nil ∧
    excludedFileCheck "data.bin" = false :=
  ⟨rfl, by decide⟩

/-- Claim C5, amended: the exclusion test is exactly "the name ends with an
excluded suffix, or equals an excluded literal name"; among files that
decode as UTF-8, no leaf is created iff that test holds; `foo.log` is
not excluded (the `*.log` entry is a literal name, not a glob), while a
file literally named `*.log` is. -/
theorem claim_C5_amended :
    (∀ name : String, excludedFileCheck name = true ↔
      (excluded_extensions.any (fun ext => pyEndswith name ext) = true ∨
        excluded_files.contains name = true)) ∧
    (∀ (name : String) (bytes : List Nat) (s : String), decodeUtf8 bytes = some s →
      (buildEntries (EntryList.cons name (Entry.file true bytes) EntryList.nil) =
          Except.ok PyEntries.nil ↔
        excludedFileCheck name = true)) ∧
    excludedFileCheck "foo.log" = false ∧
    excludedFileCheck "*.log" = true := by
  refine ⟨?_, ?_, by decide, by decide⟩
  · intro name
    unfold excludedFileCheck
    rw [Bool.or_eq_true]
  · intro name bytes s hd
    constructor
    · intro hb
      by_contra hc
      have hc' : excludedFileCheck name = false := by
        cases hx : excludedFileCheck name
        · rfl
        · exact absurd hx hc
      rw [buildEntries_single_file name bytes s hd hc'] at hb
      exact PyEntries.noConfusion (Except.ok.inj hb)
    · intro hc
      simp [buildEntries, processFiles, processDirs, hc]

/-- Claim C5, witness: the amended statement applied to a concrete
decodable file. -/
theorem claim_C5_witness :
    buildEntries (EntryList.cons "notes.txt" (Entry.file true [104]) EntryList.nil) =
        Except.ok PyEntries.nil ↔
      excludedFileCheck "notes.txt" = true :=
  claim_C5_amended.2.1 "notes.txt" [104] "h" (by decide)

/-- Claim C6: a readable file whose bytes are not valid UTF-8 is skipped
entirely — the build result equals the one without the file, so no leaf
and no error — and a root containing only such a file yields the empty
document with exit code 0. -/
theorem claim_C6_binary_skip :
    (∀ (name : String) (bytes : List Nat) (pre post : EntryList),
      decodeUtf8 bytes = none →
      buildEntries (pre ++ EntryList.cons name (Entry.file true bytes) post) =
        buildEntries (pre ++ post)) ∧
    repo_to_json (some (Entry.dir true
        (EntryList.cons "blob.bin" (Entry.file true [255, 254]) EntryList.nil))) =
      Except.ok ("\x7b\x7d", 0) := by
  constructor
  · intro name bytes pre post hd
    have hr : pyReadText bytes = none := by rw [pyReadText, hd]; rfl
    unfold buildEntries
    rw [processFiles_binary_skip name bytes hr pre post,
      processDirs_file_skip name true bytes pre post]
  · rfl

/-- Claim C6, witness: a lone continuation byte is invalid UTF-8; the
file vanishes and its sibling survives. -/
theorem claim_C6_witness :
    buildEntries (EntryList.cons "x.bin" (Entry.file true [128])
        (EntryList.cons "ok.txt" (Entry.file true [104]) EntryList.nil)) =
      buildEntries (EntryList.cons "ok.txt" (Entry.file true [104]) EntryList.nil) :=
  claim_C6_binary_skip.1 "x.bin" [128] EntryList.nil
    (EntryList.cons "ok.txt" (Entry.file true [104]) EntryList.nil) (by decide)

/-- Claim C7, counterexample: a root containing an unreadable file and a
perfectly readable one makes the whole run abort with an uncaught
`OSError` — no output at all — instead of skipping the unreadable file
and continuing. -/
theorem claim_C7_counterexample :
    repo_to_json (some (Entry.dir true
        (EntryList.cons "blocked.txt" (Entry.file false [104])
          (EntryList.cons "ok.txt" (Entry.file true [104]) EntryList.nil)))) =
      Except.error () := rfl

/-- Claim C7, amended: an error listing a subdirectory is a silent
non-fatal skip (`os.walk`'s default `onerror=None`) and traversal
continues; but a permission error opening an individual non-excluded
file propagates out of `repo_to_json` and aborts the whole snapshot. -/
theorem claim_C7_amended :
    (∀ (name : String) (sub pre post : EntryList),
      buildEntries (pre ++ EntryList.cons name (Entry.dir false sub) post) =
        buildEntries (pre ++ post)) ∧
    (∀ (name : String) (bytes : List Nat) (pre post : EntryList),
      excludedFileCheck name = false →
      buildEntries (pre ++ EntryList.cons name (Entry.file false bytes) post) =
        Except.error ()) := by
  constructor
  · intro name sub pre post
    unfold buildEntries
    rw [processFiles_dir_skip name false sub pre post,
      processDirs_unlistable_skip name sub pre post]
  · intro name bytes pre post hc
    unfold buildEntries
    rw [processFiles_unreadable name bytes hc pre post]

/-- Claim C7, witness: the amended statement applied concretely — an
unreadable file aborts the build. -/
theorem claim_C7_witness :
    buildEntries (EntryList.cons "secret.txt" (Entry.file false [0]) EntryList.nil) =
      Except.error () :=
  claim_C7_amended.2 "secret.txt" [0] EntryList.nil EntryList.nil (by decide)

/-- Claim C8: the program is a pure function of the directory tree —
running it twice on the same unchanged tree produces identical results,
hence byte-identical output documents (and therefore structurally equal
documents after parsing). -/
theorem claim_C8_idempotent :
    ∀ (root : Option Entry) (out1 out2 : Except Unit (String × Nat)),
      repo_to_json root = out1 → repo_to_json root = out2 → out1 = out2 := by
  intro root out1 out2 h1 h2
  rw [← h1, ← h2]

/-- Claim C8, witness: two runs on the empty-output root agree. -/
theorem claim_C8_witness :
    (Except.ok (("\x7b\x7d" : String), (0 : Nat)) : Except Unit (String × Nat)) =
      Except.ok ("\x7b\x7d", 0) :=
  claim_C8_idempotent none (Except.ok ("\x7b\x7d", 0)) (Except.ok ("\x7b\x7d", 0)) rfl rfl

/-- Claim C9: a non-excluded listable subdirectory always contributes a
Directory node keyed by its name, holding exactly its own build result —
in particular an empty (or fully filtered) directory appears as an
empty JSON object rather than being omitted. -/
theorem claim_C9_empty_dir :
    (∀ (name : String) (sub pre post : EntryList) (l res : PyEntries),
      excluded_dirs.contains name = false →
      buildEntries sub = Except.ok l →
      buildEntries (pre ++ EntryList.cons name (Entry.dir true sub) post) = Except.ok res →
      PyEntries.holds name (PyObj.dict l) res) ∧
    repo_to_json (some (Entry.dir true
        (EntryList.cons "empty" (Entry.dir true EntryList.nil) EntryList.nil))) =
      Except.ok ("\x7b\n  \"empty\": \x7b\x7d\n\x7d", 0) := by
  constructor
  · intro name sub pre post l res hname hsub hres
    unfold buildEntries at hres
    cases h1 : processFiles (pre ++ EntryList.cons name (Entry.dir true sub) post) with
    | error e => rw [h1] at hres; cases hres
    | ok fs =>
      rw [h1] at hres
      cases h2 : processDirs (pre ++ EntryList.cons name (Entry.dir true sub) post) with
      | error e => rw [h2] at hres; cases hres
      | ok ds =>
        rw [h2] at hres
        cases hres
        exact PyEntries.holds_append_right name (PyObj.dict l) ds
          (processDirs_holds name sub l hname hsub pre post ds h2) fs
  · rfl

/-- Claim C9, witness: an empty directory named `docs` yields the node
`("docs", empty dict)`. -/
theorem claim_C9_witness :
    PyEntries.holds "docs" (PyObj.dict PyEntries.nil)
      (PyEntries.cons "docs" (PyObj.dict PyEntries.nil) PyEntries.nil) :=
  claim_C9_empty_dir.1 "docs" EntryList.nil EntryList.nil EntryList.nil PyEntries.nil
    (PyEntries.cons "docs" (PyObj.dict PyEntries.nil) PyEntries.nil) (by decide) rfl rfl

/-- Claim C10: a file whose entire basename equals one of the excluded
extension strings is skipped, because `str.endswith` also matches when
the suffix is the whole name. -/
theorem claim_C10_extension_whole_name :
    ∀ ext : String, ext ∈ excluded_extensions →
    ∀ (rd : Bool) (bytes : List Nat) (pre post : EntryList),
      buildEntries (pre ++ EntryList.cons ext (Entry.file rd bytes) post) =
        buildEntries (pre ++ post) := by
  intro ext hmem rd bytes pre post
  have hcheck : excludedFileCheck ext = true := by
    fin_cases hmem <;> decide
  unfold buildEntries
  rw [processFiles_excluded_skip ext rd bytes hcheck pre post,
    processDirs_file_skip ext rd bytes pre post]

/-- Claim C10, witness: a hidden file named exactly `.js` vanishes. -/
theorem claim_C10_witness :
    buildEntries (EntryList.cons ".js" (Entry.file true [104]) EntryList.nil) =
      buildEntries EntryList.nil :=
  claim_C10_extension_whole_name ".js" (by decide) true [104] EntryList.nil EntryList.nil
